import Mathlib

/-!
Shallow embedding of the JWT validation core of the backend
(src/backend/app/auth/jwt_validator.py) together with the parts of the
telemetry interface it calls (observe_jwt_validation).

Modelling conventions:
* Python dict claim lookups become Option-valued fields; a missing key is
  none, a present value is some v.  Python truthiness of an optional
  string (used by the source for sub, kid, jwks_url, metadata values) is
  the predicate pyTruthy: present and non-empty.
* Machine time (time.time()) is a single integer parameter now per call.
* Network I/O of the key-set fetch is a FetchResp parameter describing
  the response the environment would produce if the fetch runs.
* The PyJWT library boundary (jwt.decode) is modelled by jwt_decode: the
  signature verifies exactly when the supplied key equals the key the
  token was signed with and the signing algorithm is in the allowed
  list; claim checks follow the library order (required claims, nbf,
  exp, aud, iss).  Key material is an abstract string; parsing of key
  material (RSAAlgorithm.from_jwk) is modelled as always succeeding.
* uuid.UUID string acceptance is modelled by pyUUIDOk following the
  CPython parser: remove the urn: and uuid: markers, strip surrounding
  braces, drop hyphens, require exactly 32 remaining characters that
  int(s, 16) accepts.
-/

/-- Error raised by the validator (JWTValidationError in the source): a
reason tag plus an optional human-readable detail. -/
structure JWTValidationError where
  reason : String
  detail : Option String := none
  deriving DecidableEq, Repr

/-- Python truthiness of an optional string: the key is present and the
value is a non-empty string. -/
def pyTruthy : Option String → Bool
  | some s => s != ""
  | none => false

/-- Characters Python str.strip() removes by default (ASCII range). -/
def pyWhitespace : List Char := [' ', '\t', '\n', '\r', '\x0b', '\x0c']

/-- Strip every character of cs from both ends of s (Python str.strip(cs)). -/
def pyStripChars (cs : List Char) (s : List Char) : List Char :=
  ((s.dropWhile (· ∈ cs)).reverse.dropWhile (· ∈ cs)).reverse

/-- Worker for removeSeq, structurally recursive on a fuel argument so the
definition evaluates by kernel reduction.  With a non-empty pattern every
step consumes at least one character, so fuel equal to the length of the
input never runs out. -/
def removeSeqAux (pat : List Char) : Nat → List Char → List Char
  | _, [] => []
  | 0, s => s
  | fuel + 1, c :: rest =>
    if pat ≠ [] ∧ pat.isPrefixOf (c :: rest) then
      removeSeqAux pat fuel (List.drop pat.length (c :: rest))
    else
      c :: removeSeqAux pat fuel rest

/-- Remove every non-overlapping occurrence of pat from s, scanning left to
right (Python str.replace(pat, "")). -/
def removeSeq (pat : List Char) (s : List Char) : List Char :=
  removeSeqAux pat s.length s

/-- Hexadecimal digit as accepted by Python int(s, 16). -/
def isHexDig (c : Char) : Bool :=
  c.isDigit || ('a' ≤ c && c ≤ 'f') || ('A' ≤ c && c ≤ 'F')

/-- Tail of a hex digit run: further digits, with single underscores allowed
only between digits. -/
def hexTail : List Char → Bool
  | [] => true
  | '_' :: [] => false
  | '_' :: c :: rest => isHexDig c && hexTail rest
  | c :: rest => isHexDig c && hexTail rest

/-- Non-empty run of hex digits with single underscores between digits. -/
def hexDigitsOk : List Char → Bool
  | [] => false
  | c :: rest => isHexDig c && hexTail rest

/-- Acceptance of a non-negative hexadecimal string by Python int(s, 16):
surrounding whitespace, an optional plus sign, an optional 0x or 0X base
marker (with one optional underscore after it), then digits. -/
def pyIntHexOk (s0 : List Char) : Bool :=
  let s1 := pyStripChars pyWhitespace s0
  let s2 := match s1 with
    | '+' :: r => r
    | _ => s1
  match s2 with
  | '0' :: 'x' :: r =>
    (match r with
     | '_' :: r2 => hexDigitsOk r2
     | _ => hexDigitsOk r)
  | '0' :: 'X' :: r =>
    (match r with
     | '_' :: r2 => hexDigitsOk r2
     | _ => hexDigitsOk r)
  | r => hexDigitsOk r

/-- Acceptance of a string by uuid.UUID(hex=s) in CPython: remove urn: and
uuid: markers, strip braces from both ends, drop all hyphens, then require
exactly 32 characters forming a hex literal int(s, 16) accepts.  (A minus
sign cannot survive the hyphen removal, so the 128-bit range check of the
constructor never fails here.) -/
def pyUUIDOk (s : String) : Bool :=
  let h1 := removeSeq ("urn:".toList) s.toList
  let h2 := removeSeq ("uuid:".toList) h1
  let h3 := pyStripChars ['\x7b', '\x7d'] h2
  let h4 := h3.filter (fun c => c != '-')
  (h4.length == 32) && pyIntHexOk h4

/-- Provider metadata sub-map (app_metadata / user_metadata) restricted to
the keys the validator reads. -/
structure MetaClaims where
  plan : Option String := none
  stripe_customer_id : Option String := none
  deriving DecidableEq, Repr

/-- JWT payload restricted to the claims the validator reads.  A field none
means the claim key is absent. -/
structure TokenPayload where
  sub : Option String := none
  exp : Option Int := none
  nbf : Option Int := none
  iat : Option Int := none
  iss : Option String := none
  aud : Option (List String) := none
  email : Option String := none
  plan : Option String := none
  app_metadata : Option MetaClaims := none
  user_metadata : Option MetaClaims := none
  stripe_customer_id : Option String := none
  deriving DecidableEq, Repr

/-- Authenticated user derived from JWT claims (UserPrincipal in the
source).  The id field keeps the accepted subject string; in the source it
is the uuid.UUID object built from that string. -/
structure UserPrincipal where
  id : String
  email : String
  plan : String := "FREE"
  stripe_customer_id : Option String := none
  raw_claims : TokenPayload
  deriving DecidableEq, Repr

/-- Embedding of UserPrincipal.from_claims: subject must be present,
non-empty and a parseable UUID; email defaults to empty; plan and
stripe_customer_id are resolved through or-chains over app_metadata,
user_metadata and the top-level claim. -/
def UserPrincipal.from_claims (claims : TokenPayload) :
    Except JWTValidationError UserPrincipal :=
  if pyTruthy claims.sub = false then
    .error ⟨"missing_sub", some "Token missing sub claim"⟩
  else
    let s := claims.sub.getD ""
    if pyUUIDOk s = false then
      .error ⟨"invalid_sub", some "Invalid UUID in sub claim"⟩
    else
      let email := claims.email.getD ""
      let app := claims.app_metadata.getD ⟨none, none⟩
      let user := claims.user_metadata.getD ⟨none, none⟩
      let plan :=
        if pyTruthy app.plan then app.plan.getD ""
        else if pyTruthy user.plan then user.plan.getD ""
        else claims.plan.getD "FREE"
      let stripe :=
        if pyTruthy app.stripe_customer_id then app.stripe_customer_id
        else if pyTruthy user.stripe_customer_id then user.stripe_customer_id
        else claims.stripe_customer_id
      .ok ⟨s, email, plan, stripe, claims⟩

/-- Thread-safe JWKS cache of the source (JWKSCache): key map, timestamp of
the last successful fetch, and the two TTL configuration fields.  The key
map is an insertion-ordered association list modelling a Python dict. -/
structure JWKSCache where
  keys : List (String × String) := []
  fetched_at : Int := 0
  ttl_seconds : Int := 300
  stale_ttl_seconds : Int := 3600
  deriving DecidableEq, Repr

/-- Embedding of JWKSCache.is_fresh. -/
def JWKSCache.is_fresh (c : JWKSCache) (now : Int) : Bool :=
  decide (now - c.fetched_at < c.ttl_seconds)

/-- Embedding of JWKSCache.is_usable: non-empty keys and within the stale
TTL. -/
def JWKSCache.is_usable (c : JWKSCache) (now : Int) : Bool :=
  (c.keys != []) && decide (now - c.fetched_at < c.stale_ttl_seconds)

/-- Embedding of JWKSCache.update: replace the whole key map and set
fetched_at to the current time. -/
def JWKSCache.update (c : JWKSCache) (keys : List (String × String)) (now : Int) :
    JWKSCache :=
  { c with keys := keys, fetched_at := now }

/-- Embedding of JWKSCache.get_key (dict.get on the key map). -/
def JWKSCache.get_key (c : JWKSCache) (kid : String) : Option String :=
  c.keys.lookup kid

/-- Dict insertion with Python semantics: an existing key keeps its
position and gets the new value, a new key is appended. -/
def dictInsert (m : List (String × String)) (k v : String) : List (String × String) :=
  match m with
  | [] => [(k, v)]
  | (k0, v0) :: rest => if k0 = k then (k0, v) :: rest else (k0, v0) :: dictInsert rest k v

/-- One entry of the JWKS response body: an optional kid field plus the key
material (the rest of the JWK object, abstracted to a string). -/
structure JWKEntry where
  kid : Option String := none
  material : String := ""
  deriving DecidableEq, Repr

/-- Environment description of what the key-set fetch would observe if it
runs: a timeout, an HTTP error status, another transport or parse error, or
a parsed response body. -/
inductive FetchResp where
  | timeout
  | httpError (status : Nat)
  | netError (msg : String)
  | body (entries : List JWKEntry)
  deriving DecidableEq, Repr

/-- Key map built by the fetch loop of the source: entries whose kid is
present and truthy, keyed by kid, later duplicates overwriting earlier
ones. -/
def jwksKeysOf (entries : List JWKEntry) : List (String × String) :=
  entries.foldl
    (fun m e =>
      match e.kid with
      | some k => if k != "" then dictInsert m k e.material else m
      | none => m)
    []

/-- Embedding of the fetch function of the source: maps transport failures
to their typed errors and rejects a response that yields no usable keys. -/
def fetch_jwks (resp : FetchResp) : Except JWTValidationError (List (String × String)) :=
  match resp with
  | .timeout => .error ⟨"jwks_timeout", some "JWKS fetch timed out"⟩
  | .httpError s => .error ⟨"jwks_http_error", some ("HTTP " ++ toString s)⟩
  | .netError m => .error ⟨"jwks_error", some m⟩
  | .body entries =>
    let keys := jwksKeysOf entries
    if keys = [] then .error ⟨"no_keys", some "JWKS response contained no keys"⟩
    else .ok keys

/-- Observable outcome of one refresh_jwks_if_needed call: the cache after
the call, how many fetches were attempted, the log lines emitted, and the
error raised (none when the call returns normally). -/
structure RefreshOut where
  cache : JWKSCache
  fetchCount : Nat
  logs : List String
  err : Option JWTValidationError
  deriving DecidableEq, Repr

/-- Embedding of refresh_jwks_if_needed: no-op without a truthy URL or with
a fresh cache; otherwise one fetch, whose success replaces the cache and
whose failure either falls back to a usable-stale cache with a warning or
re-raises the fetch error. -/
def refresh_jwks_if_needed (jwksUrl : Option String) (cache : JWKSCache) (now : Int)
    (resp : FetchResp) : RefreshOut :=
  if pyTruthy jwksUrl = false then ⟨cache, 0, [], none⟩
  else if cache.is_fresh now then ⟨cache, 0, [], none⟩
  else
    match fetch_jwks resp with
    | .ok keys => ⟨cache.update keys now, 1, ["jwks_refreshed"], none⟩
    | .error e =>
      if cache.is_usable now then
        ⟨cache, 1, ["jwks_refresh_failed_using_cache"], none⟩
      else
        ⟨cache, 1, ["jwks_refresh_failed_cache_stale"], some e⟩

/-- Embedding of get_public_key: dict lookup by kid with Python truthiness
on the result; parsing of the key material is modelled as always
succeeding. -/
def get_public_key (cache : JWKSCache) (kid : String) : Except JWTValidationError String :=
  match cache.get_key kid with
  | some m => if m != "" then .ok m else .error ⟨"unknown_kid", some ("Unknown key ID: " ++ kid)⟩
  | none => .error ⟨"unknown_kid", some ("Unknown key ID: " ++ kid)⟩

/-- Typed errors of the PyJWT library boundary that the validator can
observe from jwt.decode. -/
inductive PyJWTError where
  | invalidAlgorithm
  | invalidSignature
  | missingRequiredClaim (claim : String)
  | immatureSignature
  | expiredSignature
  | invalidIssuer
  | invalidAudience
  deriving DecidableEq, Repr

/-- Message text of a PyJWT error (str(e) in the source, abbreviated). -/
def pyjwtMessage : PyJWTError → String
  | .invalidAlgorithm => "The specified alg value is not allowed"
  | .invalidSignature => "Signature verification failed"
  | .missingRequiredClaim c => "Token is missing the " ++ c ++ " claim"
  | .immatureSignature => "The token is not yet valid (nbf)"
  | .expiredSignature => "Signature has expired"
  | .invalidIssuer => "Invalid issuer"
  | .invalidAudience => "Audience doesnt match"

/-- Options passed to jwt.decode, after merging with the library
defaults. -/
structure DecodeOpts where
  verify_exp : Bool := true
  verify_nbf : Bool := true
  verify_iat : Bool := true
  require : List String := []
  deriving DecidableEq, Repr

/-- Token as seen through the PyJWT parsing boundary: the header fields the
validator reads, the payload, and the key material plus algorithm the
signature actually verifies under. -/
structure WFToken where
  kid : Option String := none
  alg : Option String := none
  payload : TokenPayload := {}
  sigKey : String := ""
  sigAlg : String := ""
  deriving DecidableEq, Repr

/-- Bearer token input: either structurally undecodable (DecodeError from
get_unverified_header) or decodable with the given contents. -/
inductive Token where
  | malformed
  | wf (t : WFToken)
  deriving DecidableEq, Repr

/-- Presence of a claim key in the payload (payload.get(claim) is not
None), for the claim names the validator can require. -/
def payloadHas (p : TokenPayload) : String → Bool
  | "exp" => p.exp.isSome
  | "sub" => p.sub.isSome
  | "nbf" => p.nbf.isSome
  | "iat" => p.iat.isSome
  | "iss" => p.iss.isSome
  | "aud" => p.aud.isSome
  | "email" => p.email.isSome
  | _ => false

/-- Required-claims check of the library (first missing claim of the
require list wins). -/
def checkRequired (p : TokenPayload) (req : List String) : Except PyJWTError Unit :=
  match req.find? (fun c => ! payloadHas p c) with
  | some c => .error (.missingRequiredClaim c)
  | none => .ok ()

/-- Not-before check of the library: fails when the claim is present,
verification is on, and now is before nbf. -/
def checkNbf (p : TokenPayload) (verify : Bool) (now : Int) : Except PyJWTError Unit :=
  if verify then
    match p.nbf with
    | some nbf => if now < nbf then .error .immatureSignature else .ok ()
    | none => .ok ()
  else .ok ()

/-- Expiry check of the library: fails when the claim is present,
verification is on, and exp is not in the future. -/
def checkExp (p : TokenPayload) (verify : Bool) (now : Int) : Except PyJWTError Unit :=
  if verify then
    match p.exp with
    | some e => if e ≤ now then .error .expiredSignature else .ok ()
    | none => .ok ()
  else .ok ()

/-- Audience check of the library, applied only when an expected audience
was passed: membership of the expected value in the audience list. -/
def checkAud (p : TokenPayload) (audience : Option String) : Except PyJWTError Unit :=
  match audience with
  | none => .ok ()
  | some a =>
    match p.aud with
    | none => .error (.missingRequiredClaim "aud")
    | some l => if l.contains a then .ok () else .error .invalidAudience

/-- Issuer check of the library, applied only when an expected issuer was
passed: exact match. -/
def checkIss (p : TokenPayload) (issuer : Option String) : Except PyJWTError Unit :=
  match issuer with
  | none => .ok ()
  | some iss =>
    match p.iss with
    | none => .error (.missingRequiredClaim "iss")
    | some v => if v = iss then .ok () else .error .invalidIssuer

/-- Model of jwt.decode at the library boundary: the signature verifies
exactly when the supplied key equals the signing key and the signing
algorithm is in the allowed list; then the claim checks run in library
order (required claims, nbf, exp, aud, iss). -/
def jwt_decode (t : WFToken) (key : String) (algorithms : List String)
    (opts : DecodeOpts) (issuer : Option String) (audience : Option String)
    (now : Int) : Except PyJWTError TokenPayload :=
  if algorithms.contains t.sigAlg = false then .error .invalidAlgorithm
  else if key != t.sigKey then .error .invalidSignature
  else
    match checkRequired t.payload opts.require with
    | .error e => .error e
    | .ok _ =>
      match checkNbf t.payload opts.verify_nbf now with
      | .error e => .error e
      | .ok _ =>
        match checkExp t.payload opts.verify_exp now with
        | .error e => .error e
        | .ok _ =>
          match checkAud t.payload audience with
          | .error e => .error e
          | .ok _ =>
            match checkIss t.payload issuer with
            | .error e => .error e
            | .ok _ => .ok t.payload

/-- Reason mapping of the except chain of validate_jwt_async: the typed
clauses catch expiry, signature, issuer and audience errors, every other
PyJWT error is an InvalidTokenError and becomes invalid_token. -/
def mapAsyncErr (e : PyJWTError) : JWTValidationError :=
  match e with
  | .expiredSignature => ⟨"expired", some "Token has expired"⟩
  | .invalidSignature => ⟨"invalid_signature", some "Token signature is invalid"⟩
  | .invalidIssuer => ⟨"invalid_issuer", some "Token issuer is invalid"⟩
  | .invalidAudience => ⟨"invalid_audience", some "Token audience is invalid"⟩
  | e => ⟨"invalid_token", some (pyjwtMessage e)⟩

/-- Reason mapping of the except chain of validate_jwt_sync: only expiry
and signature errors get typed clauses, everything else falls into the
generic handler and becomes unknown_error. -/
def mapSyncErr (e : PyJWTError) : JWTValidationError :=
  match e with
  | .expiredSignature => ⟨"expired", some "Token has expired"⟩
  | .invalidSignature => ⟨"invalid_signature", some "Token signature is invalid"⟩
  | e => ⟨"unknown_error", some (pyjwtMessage e)⟩

deriving instance DecidableEq for Except

/-- One call to the instrumentation collaborator observe_jwt_validation,
with the labels it receives (the measured duration is real time and is not
part of the state model). -/
structure ObserveCall where
  issuer : String
  outcome : String
  reason : Option String
  deriving DecidableEq, Repr

/-- Algorithm allow-list of validate_jwt_async. -/
def allowedAlgs : List String := ["RS256", "RS384", "RS512"]

/-- Options validate_jwt_async passes to jwt.decode. -/
def asyncDecodeOpts : DecodeOpts :=
  { verify_exp := true, verify_nbf := true, verify_iat := true, require := ["exp", "sub"] }

/-- Options validate_jwt_sync passes to jwt.decode (library defaults for
everything it does not set; in particular no required claims). -/
def syncDecodeOpts : DecodeOpts :=
  { verify_exp := true, verify_nbf := true, verify_iat := true, require := [] }

/-- Observable outcome of one validate_jwt_async call: the returned
principal or raised error, the cache after the call, the number of key-set
fetches attempted, the instrumentation calls made, the algorithm lists
passed to jwt.decode, and the log lines of the refresh step. -/
structure AsyncRun where
  result : Except JWTValidationError UserPrincipal
  cache : JWKSCache
  fetchCount : Nat
  observeCalls : List ObserveCall
  decodeAlgs : List (List String)
  logs : List String
  deriving DecidableEq, Repr

/-- Embedding of validate_jwt_async: refresh the key set, parse the header,
require a truthy kid, resolve the algorithm with RS256 as default and check
the allow-list, resolve the key, decode, derive the principal.  The
instrumentation collaborator is called only on the success path, matching
the source, whose failure paths re-raise without recording metrics. -/
def validate_jwt_async (token : Token) (jwksUrl expectedIssuer expectedAudience : Option String)
    (cache : JWKSCache) (now : Int) (resp : FetchResp) : AsyncRun :=
  let issuerLabel := if pyTruthy expectedIssuer then expectedIssuer.getD "" else "supabase"
  let issParam := if pyTruthy expectedIssuer then expectedIssuer else none
  let audParam := if pyTruthy expectedAudience then expectedAudience else none
  let r := refresh_jwks_if_needed jwksUrl cache now resp
  match r.err with
  | some e => ⟨.error e, r.cache, r.fetchCount, [], [], r.logs⟩
  | none =>
    match token with
    | .malformed =>
      ⟨.error ⟨"malformed_token", some "Could not decode token header"⟩,
        r.cache, r.fetchCount, [], [], r.logs⟩
    | .wf t =>
      if pyTruthy t.kid = false then
        ⟨.error ⟨"missing_kid", some "Token header missing kid"⟩,
          r.cache, r.fetchCount, [], [], r.logs⟩
      else
        let alg := t.alg.getD "RS256"
        if allowedAlgs.contains alg = false then
          ⟨.error ⟨"invalid_algorithm", some ("Unsupported algorithm: " ++ alg)⟩,
            r.cache, r.fetchCount, [], [], r.logs⟩
        else
          match get_public_key r.cache (t.kid.getD "") with
          | .error e => ⟨.error e, r.cache, r.fetchCount, [], [], r.logs⟩
          | .ok key =>
            match jwt_decode t key [alg] asyncDecodeOpts issParam audParam now with
            | .error pe =>
              ⟨.error (mapAsyncErr pe), r.cache, r.fetchCount, [], [[alg]], r.logs⟩
            | .ok claims =>
              match UserPrincipal.from_claims claims with
              | .error e => ⟨.error e, r.cache, r.fetchCount, [], [[alg]], r.logs⟩
              | .ok p =>
                ⟨.ok p, r.cache, r.fetchCount,
                  [⟨issuerLabel, "valid", none⟩], [[alg]], r.logs⟩

/-- Observable outcome of one validate_jwt_sync call: the returned claims
or raised error, the instrumentation calls made, and the algorithm lists
passed to jwt.decode.  The sync path never touches the cache. -/
structure SyncRun where
  result : Except JWTValidationError TokenPayload
  observeCalls : List ObserveCall
  decodeAlgs : List (List String)
  deriving DecidableEq, Repr

/-- Embedding of validate_jwt_sync: parse the header, require a truthy kid,
resolve the algorithm with RS256 as default (no allow-list check in this
path), resolve the key from the cache without refreshing, decode with the
reduced option set, and return the raw claims without principal
derivation. -/
def validate_jwt_sync (token : Token) (expectedIssuer expectedAudience : Option String)
    (cache : JWKSCache) (now : Int) : SyncRun :=
  let issuerLabel := if pyTruthy expectedIssuer then expectedIssuer.getD "" else "supabase"
  let issParam := if pyTruthy expectedIssuer then expectedIssuer else none
  let audParam := if pyTruthy expectedAudience then expectedAudience else none
  match token with
  | .malformed =>
    ⟨.error ⟨"malformed_token", some "Could not decode token header"⟩, [], []⟩
  | .wf t =>
    if pyTruthy t.kid = false then
      ⟨.error ⟨"missing_kid", some "Token header missing kid"⟩, [], []⟩
    else
      let alg := t.alg.getD "RS256"
      match get_public_key cache (t.kid.getD "") with
      | .error e => ⟨.error e, [], []⟩
      | .ok key =>
        match jwt_decode t key [alg] syncDecodeOpts issParam audParam now with
        | .error pe => ⟨.error (mapSyncErr pe), [], [[alg]]⟩
        | .ok claims => ⟨.ok claims, [⟨issuerLabel, "valid", none⟩], [[alg]]⟩

/-- Reason tag of a validation result, when it is an error. -/
def errReason {α : Type} : Except JWTValidationError α → Option String
  | .error e => some e.reason
  | .ok _ => none

/-- One refresh invocation of a cache history: the arguments one
refresh_jwks_if_needed call runs with. -/
structure RefreshEvent where
  jwksUrl : Option String
  now : Int
  resp : FetchResp
  deriving DecidableEq, Repr

/-- Cache resulting from one refresh invocation (errors raised by the call
leave the cache as the call left it). -/
def runRefresh (c : JWKSCache) (e : RefreshEvent) : JWKSCache :=
  (refresh_jwks_if_needed e.jwksUrl c e.now e.resp).cache

/-- Cache resulting from a sequence of refresh invocations. -/
def runRefreshTrace (c : JWKSCache) (es : List RefreshEvent) : JWKSCache :=
  es.foldl runRefresh c

/-- Helper: a validate_jwt_async call leaves the cache exactly as the
refresh step left it, and attempts exactly the fetches the refresh step
attempted; no later stage of validation touches the cache or the
network. -/
theorem validate_async_cache_and_fetch (token : Token) (url i a : Option String)
    (cache : JWKSCache) (now : Int) (resp : FetchResp) :
    (validate_jwt_async token url i a cache now resp).cache =
      (refresh_jwks_if_needed url cache now resp).cache ∧
    (validate_jwt_async token url i a cache now resp).fetchCount =
      (refresh_jwks_if_needed url cache now resp).fetchCount := by
  constructor <;>
    (simp only [validate_jwt_async]; repeat' split) <;> rfl

/-- Helper: the reasons the fetch step can fail with. -/
theorem fetch_jwks_error_reasons (resp : FetchResp) (e : JWTValidationError)
    (hfail : fetch_jwks resp = .error e) :
    e.reason = "jwks_timeout" ∨ e.reason = "jwks_http_error" ∨
    e.reason = "jwks_error" ∨ e.reason = "no_keys" := by
  cases resp <;> simp only [fetch_jwks] at hfail
  case timeout => cases hfail; simp
  case httpError s => cases hfail; simp
  case netError m => cases hfail; simp
  case body entries =>
    split at hfail
    · cases hfail; simp
    · cases hfail

/-- C2: when the key-set fetch fails during a validation call (URL
configured, cache not fresh so the fetch actually runs), exactly one of two
outcomes occurs, decided by the usable-stale predicate: with a non-empty
cache within the stale TTL the refresh returns normally with the old keys
and logs the fallback warning; otherwise it raises the fetch failure (the
KeySetUnavailable kind, one of the jwks fetch reasons), which the
validation entry point returns for every token. -/
theorem stale_fallback_dichotomy
    (url : String) (cache : JWKSCache) (now : Int) (resp : FetchResp)
    (e : JWTValidationError)
    (hurl : url ≠ "")
    (hfresh : cache.is_fresh now = false)
    (hfail : fetch_jwks resp = .error e) :
    (e.reason = "jwks_timeout" ∨ e.reason = "jwks_http_error" ∨
      e.reason = "jwks_error" ∨ e.reason = "no_keys") ∧
    (cache.is_usable now = true →
      refresh_jwks_if_needed (some url) cache now resp =
        ⟨cache, 1, ["jwks_refresh_failed_using_cache"], none⟩) ∧
    (cache.is_usable now = false →
      refresh_jwks_if_needed (some url) cache now resp =
        ⟨cache, 1, ["jwks_refresh_failed_cache_stale"], some e⟩ ∧
      ∀ (token : Token) (i a : Option String),
        (validate_jwt_async token (some url) i a cache now resp).result = .error e) := by
  refine ⟨fetch_jwks_error_reasons resp e hfail, ?_, ?_⟩
  · intro husable
    simp [refresh_jwks_if_needed, pyTruthy, bne_iff_ne, hurl, hfresh, hfail, husable]
  · intro husable
    have href : refresh_jwks_if_needed (some url) cache now resp =
        ⟨cache, 1, ["jwks_refresh_failed_cache_stale"], some e⟩ := by
      simp [refresh_jwks_if_needed, pyTruthy, bne_iff_ne, hurl, hfresh, hfail, husable]
    refine ⟨href, ?_⟩
    intro token i a
    simp only [validate_jwt_async, href]

/-- Witness for stale_fallback_dichotomy: empty cache, stale at time 1000,
fetch times out. -/
theorem stale_fallback_dichotomy_witness :
    (("jwks_timeout" = "jwks_timeout" ∨ "jwks_timeout" = "jwks_http_error" ∨
      "jwks_timeout" = "jwks_error" ∨ "jwks_timeout" = "no_keys") ∧
    (JWKSCache.is_usable {} 1000 = true →
      refresh_jwks_if_needed (some "https://issuer/jwks") {} 1000 .timeout =
        ⟨{}, 1, ["jwks_refresh_failed_using_cache"], none⟩) ∧
    (JWKSCache.is_usable {} 1000 = false →
      refresh_jwks_if_needed (some "https://issuer/jwks") {} 1000 .timeout =
        ⟨{}, 1, ["jwks_refresh_failed_cache_stale"],
          some ⟨"jwks_timeout", some "JWKS fetch timed out"⟩⟩ ∧
      ∀ (token : Token) (i a : Option String),
        (validate_jwt_async token (some "https://issuer/jwks") i a {} 1000 .timeout).result =
          .error ⟨"jwks_timeout", some "JWKS fetch timed out"⟩)) :=
  stale_fallback_dichotomy "https://issuer/jwks" {} 1000 .timeout
    ⟨"jwks_timeout", some "JWKS fetch timed out"⟩
    (by decide) (by decide) (by decide)

/-- Helper: a refresh with a fresh cache is a complete no-op. -/
theorem refresh_fresh_noop (url : Option String) (cache : JWKSCache) (now : Int)
    (resp : FetchResp) (hfresh : cache.is_fresh now = true) :
    refresh_jwks_if_needed url cache now resp = ⟨cache, 0, [], none⟩ := by
  by_cases hurl : pyTruthy url = false
  · simp [refresh_jwks_if_needed, hurl]
  · simp only [Bool.not_eq_false] at hurl
    simp [refresh_jwks_if_needed, hurl, hfresh]

/-- C6: after a first validate call whose key-set fetch succeeded at time
now1, a second validate call within freshTTL of now1 attempts zero fetches
and leaves both the key map and fetchedAt of the cache unchanged. -/
theorem fresh_window_second_call_no_fetch
    (tok1 tok2 : Token) (url : String) (i a : Option String)
    (cache : JWKSCache) (now1 now2 : Int)
    (resp1 resp2 : FetchResp) (ks : List (String × String))
    (hurl : url ≠ "")
    (hstale : cache.is_fresh now1 = false)
    (hfetch : fetch_jwks resp1 = .ok ks)
    (hwin : now2 - now1 < cache.ttl_seconds) :
    (validate_jwt_async tok1 (some url) i a cache now1 resp1).cache.fetched_at = now1 ∧
    (validate_jwt_async tok2 (some url) i a
        (validate_jwt_async tok1 (some url) i a cache now1 resp1).cache now2 resp2).fetchCount
      = 0 ∧
    (validate_jwt_async tok2 (some url) i a
        (validate_jwt_async tok1 (some url) i a cache now1 resp1).cache now2 resp2).cache
      = (validate_jwt_async tok1 (some url) i a cache now1 resp1).cache := by
  have hc1 : (validate_jwt_async tok1 (some url) i a cache now1 resp1).cache =
      cache.update ks now1 := by
    rw [(validate_async_cache_and_fetch tok1 (some url) i a cache now1 resp1).1]
    simp [refresh_jwks_if_needed, pyTruthy, bne_iff_ne, hurl, hstale, hfetch]
  have hfresh2 : (cache.update ks now1).is_fresh now2 = true := by
    simp [JWKSCache.update, JWKSCache.is_fresh, hwin]
  have hr2 : refresh_jwks_if_needed (some url) (cache.update ks now1) now2 resp2 =
      ⟨cache.update ks now1, 0, [], none⟩ :=
    refresh_fresh_noop (some url) (cache.update ks now1) now2 resp2 hfresh2
  refine ⟨by rw [hc1]; rfl, ?_, ?_⟩
  · rw [hc1, (validate_async_cache_and_fetch tok2 (some url) i a
      (cache.update ks now1) now2 resp2).2, hr2]
  · rw [hc1, (validate_async_cache_and_fetch tok2 (some url) i a
      (cache.update ks now1) now2 resp2).1, hr2]

/-- Witness for fresh_window_second_call_no_fetch: first call at time 1000
fetches one key, second call at time 1100 is inside the fresh window. -/
theorem fresh_window_second_call_no_fetch_witness :
    (validate_jwt_async .malformed (some "https://issuer/jwks") none none {} 1000
        (.body [⟨some "k1", "m1"⟩])).cache.fetched_at = 1000 ∧
    (validate_jwt_async .malformed (some "https://issuer/jwks") none none
        (validate_jwt_async .malformed (some "https://issuer/jwks") none none {} 1000
          (.body [⟨some "k1", "m1"⟩])).cache 1100 .timeout).fetchCount = 0 ∧
    (validate_jwt_async .malformed (some "https://issuer/jwks") none none
        (validate_jwt_async .malformed (some "https://issuer/jwks") none none {} 1000
          (.body [⟨some "k1", "m1"⟩])).cache 1100 .timeout).cache
      = (validate_jwt_async .malformed (some "https://issuer/jwks") none none {} 1000
          (.body [⟨some "k1", "m1"⟩])).cache :=
  fresh_window_second_call_no_fetch .malformed .malformed "https://issuer/jwks" none none
    {} 1000 1100 (.body [⟨some "k1", "m1"⟩]) .timeout [("k1", "m1")]
    (by decide) (by decide) (by decide) (by decide)

/-- Helper: one refresh invocation either leaves the cache completely
unchanged or atomically replaces the key map with exactly the parsed result
of a successful fetch, updating fetchedAt to the call time. -/
theorem runRefresh_cases (c : JWKSCache) (ev : RefreshEvent) :
    runRefresh c ev = c ∨
    ∃ ks, fetch_jwks ev.resp = .ok ks ∧ runRefresh c ev = c.update ks ev.now := by
  unfold runRefresh refresh_jwks_if_needed
  by_cases hurl : pyTruthy ev.jwksUrl = false
  · left; simp [hurl]
  · simp only [Bool.not_eq_false] at hurl
    by_cases hfresh : c.is_fresh ev.now = true
    · left; simp [hurl, hfresh]
    · simp only [Bool.not_eq_true] at hfresh
      cases hfetch : fetch_jwks ev.resp with
      | ok ks => right; exact ⟨ks, rfl, by simp [hurl, hfresh, hfetch]⟩
      | error e =>
        left
        by_cases husable : c.is_usable ev.now = true <;>
          simp [hurl, hfresh, hfetch, husable]

/-- Helper: along any sequence of refresh invocations the key map is either
still the starting key map or exactly the parsed result of one successful
fetch of the sequence. -/
theorem runRefreshTrace_keys (es : List RefreshEvent) (c : JWKSCache) :
    (runRefreshTrace c es).keys = c.keys ∨
    ∃ ev ∈ es, ∃ ks, fetch_jwks ev.resp = .ok ks ∧ (runRefreshTrace c es).keys = ks := by
  induction es generalizing c with
  | nil => left; rfl
  | cons ev rest ih =>
    have hstep : runRefreshTrace c (ev :: rest) = runRefreshTrace (runRefresh c ev) rest := rfl
    rcases ih (runRefresh c ev) with h | ⟨ev', hmem, ks, hok, hkeys⟩
    · rcases runRefresh_cases c ev with hsame | ⟨ks, hok, hrepl⟩
      · left; rw [hstep, h, hsame]
      · right
        exact ⟨ev, List.mem_cons_self ev rest, ks, hok, by
          rw [hstep, h, hrepl]; rfl⟩
    · right
      exact ⟨ev', List.mem_cons_of_mem ev hmem, ks, hok, by rw [hstep, hkeys]⟩

/-- C7: cache invariant.  A failed fetch leaves the cache (key map and
fetchedAt) unchanged; any refresh either leaves the cache unchanged or
atomically replaces the key map with exactly the parsed result of its
successful fetch; and starting from a never-fetched cache, the key map is
always either empty or exactly the parsed result of one complete successful
fetch response of the history — never a merge of two fetches. -/
theorem cache_single_fetch_invariant
    (c c0 : JWKSCache) (ev : RefreshEvent) (es : List RefreshEvent)
    (e : JWTValidationError)
    (hfail : fetch_jwks ev.resp = .error e)
    (hc0 : c0.keys = []) :
    runRefresh c ev = c ∧
    (∀ ev' : RefreshEvent, runRefresh c ev' = c ∨
      ∃ ks, fetch_jwks ev'.resp = .ok ks ∧ runRefresh c ev' = c.update ks ev'.now) ∧
    ((runRefreshTrace c0 es).keys = [] ∨
      ∃ ev' ∈ es, ∃ ks, fetch_jwks ev'.resp = .ok ks ∧ (runRefreshTrace c0 es).keys = ks) := by
  refine ⟨?_, fun ev' => runRefresh_cases c ev', ?_⟩
  · rcases runRefresh_cases c ev with h | ⟨ks, hok, _⟩
    · exact h
    · rw [hfail] at hok; cases hok
  · rcases runRefreshTrace_keys es c0 with h | h
    · left; rw [h, hc0]
    · right; exact h

/-- Witness for cache_single_fetch_invariant: a populated cache, a timed-out
fetch event, and a two-event history from the empty cache. -/
theorem cache_single_fetch_invariant_witness :
    runRefresh ⟨[("k1", "m1")], 0, 300, 3600⟩ ⟨some "u", 1000, .timeout⟩ =
      ⟨[("k1", "m1")], 0, 300, 3600⟩ ∧
    (∀ ev' : RefreshEvent, runRefresh ⟨[("k1", "m1")], 0, 300, 3600⟩ ev' =
        ⟨[("k1", "m1")], 0, 300, 3600⟩ ∨
      ∃ ks, fetch_jwks ev'.resp = .ok ks ∧
        runRefresh ⟨[("k1", "m1")], 0, 300, 3600⟩ ev' =
          JWKSCache.update ⟨[("k1", "m1")], 0, 300, 3600⟩ ks ev'.now) ∧
    ((runRefreshTrace {} [⟨some "u", 10, .body [⟨some "k2", "m2"⟩]⟩,
        ⟨some "u", 2000, .timeout⟩]).keys = [] ∨
      ∃ ev' ∈ [(⟨some "u", 10, .body [⟨some "k2", "m2"⟩]⟩ : RefreshEvent),
        ⟨some "u", 2000, .timeout⟩], ∃ ks, fetch_jwks ev'.resp = .ok ks ∧
        (runRefreshTrace {} [⟨some "u", 10, .body [⟨some "k2", "m2"⟩]⟩,
          ⟨some "u", 2000, .timeout⟩]).keys = ks) :=
  cache_single_fetch_invariant ⟨[("k1", "m1")], 0, 300, 3600⟩ {}
    ⟨some "u", 1000, .timeout⟩
    [⟨some "u", 10, .body [⟨some "k2", "m2"⟩]⟩, ⟨some "u", 2000, .timeout⟩]
    ⟨"jwks_timeout", some "JWKS fetch timed out"⟩ (by decide) (by decide)

/-- Shared concrete cache holding one key k1 with material m1. -/
def demoCache : JWKSCache := { keys := [("k1", "m1")] }

/-- Token whose header carries kid k1 and the disallowed algorithm HS256,
with a signature that verifies under the cached key material. -/
def hs256Token : WFToken :=
  { kid := some "k1", alg := some "HS256", payload := {}, sigKey := "m1", sigAlg := "HS256" }

/-- C1 counterexample: validate_jwt_sync, given a token whose header alg is
HS256 (outside the allow-list) and whose kid matches a cached key, does not
return the UnsupportedAlgorithm failure kind and does reach signature
verification with HS256: the algorithms list handed to the decode step is
exactly HS256, refuting the claim for the sync entry point. -/
theorem sync_disallowed_alg_counterexample :
    (validate_jwt_sync (.wf hs256Token) none none demoCache 0).decodeAlgs = [["HS256"]] ∧
    errReason (validate_jwt_sync (.wf hs256Token) none none demoCache 0).result ≠
      some "invalid_algorithm" := by
  decide

/-- C1 amended: the allow-list property holds for validate_jwt_async alone.
For every token whose header has a (truthy) kid and an alg outside the
fixed allow-list, when the preceding JWKS refresh step does not itself
raise, validate_jwt_async returns the invalid_algorithm failure
(UnsupportedAlgorithm kind) whatever the cache holds, and never invokes
signature verification.  validate_jwt_sync performs no such check (see the
counterexample). -/
theorem async_rejects_disallowed_alg
    (t : WFToken) (kid algv : String) (url i a : Option String)
    (cache : JWKSCache) (now : Int) (resp : FetchResp)
    (hkid : t.kid = some kid) (hkidne : kid ≠ "")
    (halg : t.alg = some algv)
    (hbad : allowedAlgs.contains algv = false)
    (hok : (refresh_jwks_if_needed url cache now resp).err = none) :
    (validate_jwt_async (.wf t) url i a cache now resp).result =
      .error ⟨"invalid_algorithm", some ("Unsupported algorithm: " ++ algv)⟩ ∧
    (validate_jwt_async (.wf t) url i a cache now resp).decodeAlgs = [] := by
  have hktruthy : pyTruthy t.kid = true := by
    rw [hkid]; simp [pyTruthy, bne_iff_ne, hkidne]
  have hnotmem : algv ∉ allowedAlgs := by simpa using hbad
  constructor <;>
    simp [validate_jwt_async, hok, hktruthy, halg, hnotmem]

/-- Witness for async_rejects_disallowed_alg: HS256 token against a cache
holding its kid, no JWKS URL configured. -/
theorem async_rejects_disallowed_alg_witness :
    (validate_jwt_async (.wf hs256Token) none none none demoCache 0 .timeout).result =
      .error ⟨"invalid_algorithm", some ("Unsupported algorithm: " ++ "HS256")⟩ ∧
    (validate_jwt_async (.wf hs256Token) none none none demoCache 0 .timeout).decodeAlgs = [] :=
  async_rejects_disallowed_alg hs256Token "k1" "HS256" none none none demoCache 0 .timeout
    (by decide) (by decide) (by decide) (by decide) (by decide)

/-- C3 counterexample: with a configured JWKS URL and a stale cache, a
validation call on a structurally undecodable token performs one key-set
fetch (the refresh step runs before header parsing), even though the result
is the MalformedToken failure.  This refutes the no-network-call part of
the claim. -/
theorem malformed_token_fetch_counterexample :
    (validate_jwt_async .malformed (some "https://issuer/jwks") none none {} 1000
        (.body [⟨some "k1", "m1"⟩])).fetchCount = 1 ∧
    (validate_jwt_async .malformed (some "https://issuer/jwks") none none {} 1000
        (.body [⟨some "k1", "m1"⟩])).result =
      .error ⟨"malformed_token", some "Could not decode token header"⟩ := by
  decide

/-- C3 amended: for every structurally undecodable token, validate returns
MalformedToken provided the preceding JWKS refresh step does not itself
raise; the call performs exactly the fetches of the refresh step (zero only
when the cache is fresh or no URL is configured), because the refresh runs
before the header is parsed. -/
theorem malformed_token_result
    (url i a : Option String) (cache : JWKSCache) (now : Int) (resp : FetchResp)
    (hok : (refresh_jwks_if_needed url cache now resp).err = none) :
    (validate_jwt_async .malformed url i a cache now resp).result =
      .error ⟨"malformed_token", some "Could not decode token header"⟩ ∧
    (validate_jwt_async .malformed url i a cache now resp).fetchCount =
      (refresh_jwks_if_needed url cache now resp).fetchCount ∧
    (cache.is_fresh now = true ∨ pyTruthy url = false →
      (validate_jwt_async .malformed url i a cache now resp).fetchCount = 0) := by
  refine ⟨?_, (validate_async_cache_and_fetch .malformed url i a cache now resp).2, ?_⟩
  · simp [validate_jwt_async, hok]
  · intro h
    rw [(validate_async_cache_and_fetch .malformed url i a cache now resp).2]
    rcases h with hfresh | hurl
    · rw [refresh_fresh_noop url cache now resp hfresh]
    · simp [refresh_jwks_if_needed, hurl]

/-- Witness for malformed_token_result: fresh cache at time 0, URL
configured. -/
theorem malformed_token_result_witness :
    (validate_jwt_async .malformed (some "https://issuer/jwks") none none demoCache 0
        .timeout).result =
      .error ⟨"malformed_token", some "Could not decode token header"⟩ ∧
    (validate_jwt_async .malformed (some "https://issuer/jwks") none none demoCache 0
        .timeout).fetchCount =
      (refresh_jwks_if_needed (some "https://issuer/jwks") demoCache 0 .timeout).fetchCount ∧
    (demoCache.is_fresh 0 = true ∨ pyTruthy (some "https://issuer/jwks") = false →
      (validate_jwt_async .malformed (some "https://issuer/jwks") none none demoCache 0
        .timeout).fetchCount = 0) :=
  malformed_token_result (some "https://issuer/jwks") none none demoCache 0 .timeout
    (by decide)

/-- Token that passes every check of the async path against demoCache: kid
k1, algorithm RS256, valid subject UUID, expiry in the future. -/
def validToken : WFToken :=
  { kid := some "k1", alg := some "RS256",
    payload := { sub := some "00000000-0000-0000-0000-000000000000", exp := some 1000 },
    sigKey := "m1", sigAlg := "RS256" }

/-- C4: failing exit paths of the validation entry points make zero calls
to the instrumentation collaborator, not exactly one.  The async failure
branches re-raise before any observe call (the comment in the source
claiming metrics are recorded in the failure handlers has no matching
code), shown here at concrete failing inputs for a malformed token, a
disallowed algorithm and an unknown key, together with the success path
making its single call. -/
theorem failure_paths_skip_instrumentation :
    (validate_jwt_async .malformed none none none {} 0 .timeout).result =
      .error ⟨"malformed_token", some "Could not decode token header"⟩ ∧
    (validate_jwt_async .malformed none none none {} 0 .timeout).observeCalls = [] ∧
    (validate_jwt_async (.wf hs256Token) none none none demoCache 0 .timeout).observeCalls
      = [] ∧
    (validate_jwt_async (.wf ⟨some "kX", some "RS256", {}, "m", "RS256"⟩)
        none none none demoCache 0 .timeout).observeCalls = [] ∧
    (validate_jwt_sync .malformed none none {} 0).observeCalls = [] ∧
    (validate_jwt_async (.wf validToken) none none none demoCache 0 .timeout).observeCalls
      = [⟨"supabase", "valid", none⟩] := by
  decide

/-- Token that is correctly signed under the cached key k1 but carries
neither a subject nor an expiry claim. -/
def noClaimsToken : WFToken :=
  { kid := some "k1", alg := some "RS256", payload := {}, sigKey := "m1", sigAlg := "RS256" }

/-- C5 counterexample: validate_jwt_sync, given a well-formed, correctly
signed token that lacks both the subject and the expiry claim, succeeds and
returns the claims (its decode options carry no required-claim list and the
expiry check is skipped for an absent claim), refuting the claim for the
sync entry point. -/
theorem sync_missing_required_claims_counterexample :
    noClaimsToken.payload.sub = none ∧ noClaimsToken.payload.exp = none ∧
    (validate_jwt_sync (.wf noClaimsToken) none none demoCache 0).result =
      .ok noClaimsToken.payload ∧
    (validate_jwt_sync (.wf noClaimsToken) none none demoCache 0).observeCalls =
      [⟨"supabase", "valid", none⟩] := by
  decide

/-- C5 amended: the required-claim property holds for validate_jwt_async
alone, whose decode options require exp and sub: an otherwise well-formed,
correctly signed token lacking either claim makes the decode step fail with
the missing-required-claim library error, which the except chain surfaces
as the invalid_token failure (not a dedicated reason tag), with no
instrumentation call.  validate_jwt_sync instead succeeds (see the
counterexample). -/
theorem async_missing_required_claim_fails
    (t : WFToken) (kid : String) (url i a : Option String)
    (cache : JWKSCache) (now : Int) (resp : FetchResp)
    (hok : (refresh_jwks_if_needed url cache now resp).err = none)
    (hkid : t.kid = some kid) (hkidne : kid ≠ "")
    (hkey : get_public_key (refresh_jwks_if_needed url cache now resp).cache kid =
      .ok t.sigKey)
    (hres : t.alg.getD "RS256" = t.sigAlg)
    (hallowed : allowedAlgs.contains t.sigAlg = true)
    (hmiss : t.payload.exp = none ∨ t.payload.sub = none) :
    jwt_decode t t.sigKey [t.sigAlg] asyncDecodeOpts
        (if pyTruthy i then i else none) (if pyTruthy a then a else none) now =
      .error (.missingRequiredClaim (if t.payload.exp = none then "exp" else "sub")) ∧
    (validate_jwt_async (.wf t) url i a cache now resp).result =
      .error ⟨"invalid_token", some (pyjwtMessage
        (.missingRequiredClaim (if t.payload.exp = none then "exp" else "sub")))⟩ ∧
    (validate_jwt_async (.wf t) url i a cache now resp).observeCalls = [] := by
  have hktruthy : pyTruthy (some kid) = true := by
    simp [pyTruthy, bne_iff_ne, hkidne]
  have hdec : jwt_decode t t.sigKey [t.sigAlg] asyncDecodeOpts
      (if pyTruthy i then i else none) (if pyTruthy a then a else none) now =
      .error (.missingRequiredClaim (if t.payload.exp = none then "exp" else "sub")) := by
    by_cases hexp : t.payload.exp = none
    · simp [jwt_decode, checkRequired, asyncDecodeOpts, payloadHas, hexp]
    · have hsub : t.payload.sub = none := by tauto
      rcases Option.ne_none_iff_exists.mp hexp with ⟨v, hv⟩
      simp [jwt_decode, checkRequired, asyncDecodeOpts, payloadHas, ← hv, hsub, hexp]
  have hmem : t.sigAlg ∈ allowedAlgs := by simpa using hallowed
  refine ⟨hdec, ?_, ?_⟩ <;>
    simp [validate_jwt_async, hok, hktruthy, hkid, hmem, hres, hkey, hdec, mapAsyncErr,
      pyjwtMessage]

/-- Witness for async_missing_required_claim_fails: the signed token with
no claims against demoCache, no URL configured. -/
theorem async_missing_required_claim_fails_witness :
    jwt_decode noClaimsToken "m1" ["RS256"] asyncDecodeOpts
        (if pyTruthy none then none else none) (if pyTruthy none then none else none) 0 =
      .error (.missingRequiredClaim
        (if noClaimsToken.payload.exp = none then "exp" else "sub")) ∧
    (validate_jwt_async (.wf noClaimsToken) none none none demoCache 0 .timeout).result =
      .error ⟨"invalid_token", some (pyjwtMessage (.missingRequiredClaim
        (if noClaimsToken.payload.exp = none then "exp" else "sub")))⟩ ∧
    (validate_jwt_async (.wf noClaimsToken) none none none demoCache 0 .timeout).observeCalls
      = [] :=
  async_missing_required_claim_fails noClaimsToken "k1" none none none demoCache 0 .timeout
    (by decide) (by decide) (by decide) (by decide) (by decide) (by decide)
    (Or.inl (by decide))

/-- C8: principal derivation and the subject claim.  The InvalidSubject
failure kind of the design maps to the two reason tags of the source,
missing_sub (claim absent or empty) and invalid_sub (claim present but not
parseable as a UUID).  Derivation fails with one of those two reasons
whenever the subject claim is absent, and whenever it is present but not
accepted by the UUID parser; and every successfully constructed principal
carries a non-empty subject identifier the UUID parser accepts, equal to
the subject claim. -/
theorem principal_subject_validation (claims : TokenPayload) :
    (claims.sub = none →
      UserPrincipal.from_claims claims =
        .error ⟨"missing_sub", some "Token missing sub claim"⟩) ∧
    (∀ s, claims.sub = some s → pyUUIDOk s = false →
      errReason (UserPrincipal.from_claims claims) = some "missing_sub" ∨
      errReason (UserPrincipal.from_claims claims) = some "invalid_sub") ∧
    (∀ p, UserPrincipal.from_claims claims = .ok p →
      claims.sub = some p.id ∧ pyUUIDOk p.id = true ∧ p.id ≠ "") := by
  refine ⟨?_, ?_, ?_⟩
  · intro hnone
    simp [UserPrincipal.from_claims, pyTruthy, hnone]
  · intro s hs hbad
    by_cases hempty : s = ""
    · left
      simp [UserPrincipal.from_claims, pyTruthy, hs, hempty, errReason]
    · right
      simp [UserPrincipal.from_claims, pyTruthy, bne_iff_ne, hs, hempty, hbad, errReason]
  · intro p hp
    rcases hsub : claims.sub with _ | s
    · simp [UserPrincipal.from_claims, pyTruthy, hsub] at hp
    · by_cases hempty : s = ""
      · simp [UserPrincipal.from_claims, pyTruthy, hsub, hempty] at hp
      · by_cases huuid : pyUUIDOk s = true
        · have hid : p.id = s := by
            simp [UserPrincipal.from_claims, pyTruthy, bne_iff_ne, hsub, hempty, huuid] at hp
            rw [← hp]
          refine ⟨?_, ?_, ?_⟩
          · rw [hid]
          · rw [hid]; exact huuid
          · rw [hid]; exact hempty
        · have hfalse : pyUUIDOk s = false := by simpa using huuid
          simp [UserPrincipal.from_claims, pyTruthy, bne_iff_ne, hsub, hempty, hfalse] at hp

/-- Witness for principal_subject_validation: a malformed subject string is
rejected with one of the two subject reason tags. -/
theorem principal_subject_validation_witness :
    errReason (UserPrincipal.from_claims { sub := some "not-a-uuid" }) = some "missing_sub" ∨
    errReason (UserPrincipal.from_claims { sub := some "not-a-uuid" }) = some "invalid_sub" :=
  (principal_subject_validation { sub := some "not-a-uuid" }).2.1 "not-a-uuid" rfl (by decide)

/-- Claim map holding a plan value both at top level (PRO) and in the
application-metadata sub-map (the empty string), two different values. -/
def planClashClaims : TokenPayload :=
  { sub := some "00000000-0000-0000-0000-000000000000",
    plan := some "PRO",
    app_metadata := some { plan := some "", stripe_customer_id := none } }

/-- C9 counterexample: with the plan claim present in both the
application-metadata sub-map (empty string) and the top level (PRO), two
different values, the derived principal carries the top-level value, not
the application-metadata value: the or-chain of the source skips falsy
values, so the application-metadata value does not always win. -/
theorem plan_precedence_counterexample :
    (planClashClaims.app_metadata.getD ⟨none, none⟩).plan = some "" ∧
    planClashClaims.plan = some "PRO" ∧
    ("" : String) ≠ "PRO" ∧
    (UserPrincipal.from_claims planClashClaims).toOption.map UserPrincipal.plan =
      some "PRO" := by
  decide

/-- C9 amended: plan resolution follows the precedence application
metadata, then user metadata, then top-level claim, else FREE, but
restricted to truthy (non-empty) values at the two metadata levels: a
truthy application-metadata plan always wins; with a falsy
application-metadata plan a truthy user-metadata plan wins; with both falsy
the top-level claim value is used when the key is present (even if empty),
else FREE. -/
theorem plan_precedence_truthy (claims : TokenPayload) (p : UserPrincipal)
    (h : UserPrincipal.from_claims claims = .ok p) :
    (∀ ap, (claims.app_metadata.getD ⟨none, none⟩).plan = some ap → ap ≠ "" →
      p.plan = ap) ∧
    (pyTruthy (claims.app_metadata.getD ⟨none, none⟩).plan = false →
      ∀ up, (claims.user_metadata.getD ⟨none, none⟩).plan = some up → up ≠ "" →
        p.plan = up) ∧
    (pyTruthy (claims.app_metadata.getD ⟨none, none⟩).plan = false →
      pyTruthy (claims.user_metadata.getD ⟨none, none⟩).plan = false →
      p.plan = claims.plan.getD "FREE") := by
  have hplan : p.plan =
      (if pyTruthy (claims.app_metadata.getD ⟨none, none⟩).plan then
        (claims.app_metadata.getD ⟨none, none⟩).plan.getD ""
      else if pyTruthy (claims.user_metadata.getD ⟨none, none⟩).plan then
        (claims.user_metadata.getD ⟨none, none⟩).plan.getD ""
      else claims.plan.getD "FREE") := by
    simp only [UserPrincipal.from_claims] at h
    split at h
    · cases h
    · split at h
      · cases h
      · injection h with h2
        rw [← h2]
  refine ⟨?_, ?_, ?_⟩
  · intro ap hap hapne
    have ht : pyTruthy (claims.app_metadata.getD ⟨none, none⟩).plan = true := by
      rw [hap]; simp [pyTruthy, bne_iff_ne, hapne]
    rw [hplan, ht]
    simp [hap]
  · intro hafalse up hup hupne
    have ht : pyTruthy (claims.user_metadata.getD ⟨none, none⟩).plan = true := by
      rw [hup]; simp [pyTruthy, bne_iff_ne, hupne]
    rw [hplan, hafalse, ht]
    simp [hup]
  · intro hafalse hufalse
    rw [hplan, hafalse, hufalse]
    simp

/-- Witness for plan_precedence_truthy: the clash claim map, whose derived
plan equals the top-level claim value. -/
theorem plan_precedence_truthy_witness :
    (⟨"00000000-0000-0000-0000-000000000000", "", "PRO", none, planClashClaims⟩ :
      UserPrincipal).plan = planClashClaims.plan.getD "FREE" :=
  (plan_precedence_truthy planClashClaims
    ⟨"00000000-0000-0000-0000-000000000000", "", "PRO", none, planClashClaims⟩
    (by decide)).2.2 (by decide) (by decide)

/-- C10: a header carrying a kid but no alg field is not rejected for a
missing algorithm: both entry points substitute RS256 (which is in the
allow-list, so the async check passes) and hand exactly the algorithm list
RS256 to signature verification, whatever the verification then returns.
Hypotheses: the refresh step does not raise and the kid resolves to a key,
so that the paths reach the decode step at all. -/
theorem missing_alg_defaults_rs256
    (t : WFToken) (kid keyA keyS : String) (url i a : Option String)
    (cache : JWKSCache) (now : Int) (resp : FetchResp)
    (halg : t.alg = none) (hkid : t.kid = some kid) (hkidne : kid ≠ "")
    (hok : (refresh_jwks_if_needed url cache now resp).err = none)
    (hkeyA : get_public_key (refresh_jwks_if_needed url cache now resp).cache kid =
      .ok keyA)
    (hkeyS : get_public_key cache kid = .ok keyS) :
    allowedAlgs.contains "RS256" = true ∧
    (validate_jwt_async (.wf t) url i a cache now resp).decodeAlgs = [["RS256"]] ∧
    (validate_jwt_sync (.wf t) i a cache now).decodeAlgs = [["RS256"]] := by
  have hktruthy : pyTruthy (some kid) = true := by simp [pyTruthy, bne_iff_ne, hkidne]
  have hmem : ("RS256" : String) ∈ allowedAlgs := by decide
  refine ⟨by decide, ?_, ?_⟩
  · simp [validate_jwt_async, hok, hkid, hktruthy, halg, hmem, hkeyA]
    repeat' split
    all_goals rfl
  · simp [validate_jwt_sync, hkid, hktruthy, halg, hkeyS]
    repeat' split
    all_goals rfl

/-- Witness for missing_alg_defaults_rs256: header with kid k1 and no alg
against demoCache. -/
theorem missing_alg_defaults_rs256_witness :
    allowedAlgs.contains "RS256" = true ∧
    (validate_jwt_async (.wf ⟨some "k1", none, {}, "m1", "RS256"⟩) none none none
      demoCache 0 .timeout).decodeAlgs = [["RS256"]] ∧
    (validate_jwt_sync (.wf ⟨some "k1", none, {}, "m1", "RS256"⟩) none none
      demoCache 0).decodeAlgs = [["RS256"]] :=
  missing_alg_defaults_rs256 ⟨some "k1", none, {}, "m1", "RS256"⟩ "k1" "m1" "m1"
    none none none demoCache 0 .timeout
    rfl rfl (by decide) (by decide) (by decide) (by decide)
